import Mathlib

/-!
Shallow embedding of `app1.py`, a single-file Flask contest-registration and
results-management application, together with proofs about its route handlers.

Modelling conventions, applied uniformly:
* The SQLAlchemy store is a `DB` record of lists of rows; `db.session.add` +
  `commit` is list append, `db.session.delete` removes the fetched row.
* Mutating the ORM object fetched by primary key / unique column and committing
  is modelled as updating every row matching that key; the key is unique, so
  exactly the fetched row is touched.
* Autoincrement primary keys assigned on insert are passed to the handler as an
  explicit `newId` argument.
* The Flask session cookie is a `Session` record; `flash` calls are collected in
  a list; the HTTP outcome is a `Response`.
* `werkzeug`'s salted `generate_password_hash` / `check_password_hash` pair is
  abstracted to storing the password itself and comparing for equality; the
  handlers only ever depend on the boolean outcome of the check.
* `time.time()` float timestamps are modelled as integer seconds; `strptime`
  date/time parsing is abstracted by giving the handler the parsed value.
* Logging (`app.logger`, `log_security_event`) and actual SMTP delivery are
  side effects outside the store and are omitted; `assign_and_email_all` is
  modelled with every send succeeding.
-/

/-- Security configuration constant `RESET_TOKEN` from `app1.py` line 54. -/
def RESET_TOKEN : String := "myUltraSecretResetToken123!"

/-- Security configuration constant `ADMIN_REGISTRATION_CODE`, `app1.py` line 1669. -/
def ADMIN_REGISTRATION_CODE : String := "HRISHABHADMIN2025"

/-- Maximum failed login attempts before temporary lockout, `app1.py` line 1670. -/
def MAX_LOGIN_ATTEMPTS : Nat := 5

/-- Lockout time in seconds (5 minutes), `app1.py` line 1671. -/
def LOGIN_LOCKOUT_TIME : Int := 300

/-- Row of the `Admin` model (`app1.py` lines 56-61). -/
structure Admin where
  id : Nat
  username : String
  password_hash : String
deriving DecidableEq

/-- Row of the `Contest` model (`app1.py` lines 74-82); `date` is the parsed
date as a day ordinal, `test_time` the parsed optional time of day. -/
structure Contest where
  id : Nat
  name : String
  date : Int
  test_time : Option Int
  syllabus : Option String
  is_active : Bool
  publish_results : Bool
deriving DecidableEq

/-- Row of the `Student` model (`app1.py` lines 84-95), a registration record
scoped to a contest. -/
structure Student where
  id : Nat
  name : String
  email : String
  college : String
  branch : String
  graduation_year : Option Int
  status : String
  test_link : Option String
  score : Option Int
  contest_id : Nat
deriving DecidableEq

/-- Row of the `ContestSetting` key-value model (`app1.py` lines 97-100). -/
structure ContestSetting where
  id : Nat
  key : String
  value : Option String
deriving DecidableEq

/-- The relational store: one list of rows per model. -/
structure DB where
  admins : List Admin
  contests : List Contest
  students : List Student
  settings : List ContestSetting
deriving DecidableEq

/-- The Flask session cookie: the two flags the app stores in it. -/
structure Session where
  admin_id : Option Nat
  student_email : Option String
deriving DecidableEq

/-- One `flash(message, category)` call. -/
structure Flash where
  message : String
  category : String
deriving DecidableEq

/-- The observable HTTP outcome of a handler. -/
inductive Response where
  | redirect (endpoint : String)
  | render (title : String)
  | http (status : Nat) (body : String)
  | csvFile (filename : String) (rows : List (List String))
  | notFound
deriving DecidableEq

/-- Result of a handler that may change the store: new store, response, flashes. -/
structure HandlerResult where
  db : DB
  resp : Response
  flashes : List Flash
deriving DecidableEq

/-- Python truthiness of a string: the empty string is falsy. -/
def pyTruthy (s : String) : Bool := !s.data.isEmpty

/-- Python `str.isdigit` restricted to ASCII: true on a non-empty all-digit string. -/
def pyIsDigit (s : String) : Bool := !s.data.isEmpty && s.data.all Char.isDigit

/-- Python `int()` on a digits-only string. -/
def pyInt (s : String) : Int := Int.ofNat (s.data.foldl (fun acc c => acc * 10 + (c.toNat - 48)) 0)

/-- Match of `needle` against the front of `hay`, over character lists. -/
def leadsWith : List Char → List Char → Bool
  | [], _ => true
  | _ :: _, [] => false
  | a :: as, b :: bs => a == b && leadsWith as bs

/-- Python `needle in hay` substring test, over character lists. -/
def hasSub : List Char → List Char → Bool
  | needle, [] => needle.isEmpty
  | needle, c :: rest => leadsWith needle (c :: rest) || hasSub needle rest

/-- Python `needle in hay` on strings. -/
def pyInStr (needle hay : String) : Bool := hasSub needle.data hay.data

/-- Python `str.lower`, ASCII. -/
def asciiLower (s : String) : String := ⟨s.data.map Char.toLower⟩

/-- Werkzeug `generate_password_hash`, abstracted (see module docstring): the
stored "hash" is the password itself, so that `check_password_hash` is equality. -/
def generate_password_hash (password : String) : String := password

/-- Werkzeug `check_password_hash`, abstracted to equality with the stored secret. -/
def check_password_hash (stored password : String) : Bool := stored == password

/-- `Contest.query.get(cid)`: primary-key lookup. -/
def queryContest (db : DB) (cid : Nat) : Option Contest :=
  db.contests.find? (fun c => c.id == cid)

/-- `Student.query.get(sid)`: primary-key lookup. -/
def queryStudent (db : DB) (sid : Nat) : Option Student :=
  db.students.find? (fun s => s.id == sid)

/-- `Admin.query.get(aid)`: primary-key lookup. -/
def queryAdminById (db : DB) (aid : Nat) : Option Admin :=
  db.admins.find? (fun a => a.id == aid)

/-- `Admin.query.filter_by(username=u).first()`. -/
def queryAdminByUsername (db : DB) (u : String) : Option Admin :=
  db.admins.find? (fun a => a.username == u)

/-- `Student.query.filter_by(email=e, contest_id=cid).first()`: the duplicate
registration check used by both registration routes. -/
def queryDuplicate (db : DB) (email : String) (cid : Nat) : Option Student :=
  db.students.find? (fun s => s.email == email && s.contest_id == cid)

/-- `ContestSetting.query.filter_by(key=k).first()`. -/
def querySetting (db : DB) (k : String) : Option ContestSetting :=
  db.settings.find? (fun s => s.key == k)

/-- Commit of a mutation to the `Student` row fetched by primary key `sid`. -/
def updateStudent (db : DB) (sid : Nat) (f : Student → Student) : DB :=
  { db with students := db.students.map (fun s => if s.id == sid then f s else s) }

/-- Commit of a mutation to the `Contest` row fetched by primary key `cid`. -/
def updateContest (db : DB) (cid : Nat) (f : Contest → Contest) : DB :=
  { db with contests := db.contests.map (fun c => if c.id == cid then f c else c) }

/-- Commit of a mutation to the `Admin` row fetched by its unique `username`. -/
def updateAdminByUsername (db : DB) (u : String) (f : Admin → Admin) : DB :=
  { db with admins := db.admins.map (fun a => if a.username == u then f a else a) }

/-- Form data of the public registration route (`app1.py` lines 1215-1224);
`graduation_year` arrives pre-parsed (type coercion of the submitted string to
the Integer column is the ORM's job, abstracted here). -/
structure RegistrationForm where
  name : String
  email : String
  college : String
  branch : String
  graduation_year : Option Int
deriving DecidableEq

/-- Request to `/register/<contest_id>`: a GET of the form or a POST of it. -/
inductive RegisterRequest where
  | get
  | post (form : RegistrationForm)
deriving DecidableEq

/-- Route `/register/<int:contest_id>` (`app1.py` lines 1208-1231). The contest
is fetched with `get_or_404`; a closed contest redirects home; a POST whose
(email, contest) pair is already registered is flashed an error and redirected
back; otherwise a new `Student` row is inserted with the column defaults
`status='Pending'`, `test_link=None`, `score=None`. -/
def register (db : DB) (contest_id : Nat) (req : RegisterRequest) (newId : Nat) : HandlerResult :=
  match queryContest db contest_id with
  | none => ⟨db, .notFound, []⟩
  | some contest =>
    if !contest.is_active then
      ⟨db, .redirect "index", [⟨"Registration for this contest is closed.", "error"⟩]⟩
    else
      match req with
      | .get => ⟨db, .render ("Register for " ++ contest.name), []⟩
      | .post form =>
        if (queryDuplicate db form.email contest.id).isSome then
          ⟨db, .redirect "register",
            [⟨"You have already registered for this contest with this email address.", "error"⟩]⟩
        else
          let new_student : Student :=
            { id := newId, name := form.name, email := form.email, college := form.college,
              branch := form.branch, graduation_year := form.graduation_year,
              status := "Pending", test_link := none, score := none, contest_id := contest.id }
          ⟨{ db with students := db.students ++ [new_student] }, .redirect "student_login",
            [⟨"You have successfully registered for " ++ contest.name ++
              "! Please log in to check your status.", "success"⟩]⟩

/-- Form data of the admin manual-registration route (`app1.py` lines 1537-1542);
the contest id is taken from the form (`int(request.form['contest_id'])`). -/
structure ManualRegistrationForm where
  name : String
  email : String
  college : String
  branch : String
  graduation_year : Option Int
  contest_id : Nat
deriving DecidableEq

/-- Request to `/admin/manual_registration`. -/
inductive ManualRegRequest where
  | get
  | post (form : ManualRegistrationForm)
deriving DecidableEq

/-- Route `/admin/manual_registration` (`app1.py` lines 1534-1548). Gated on
`'admin_id' in session`; a duplicate (email, contest) pair is flashed an error
and falls through to re-render the page; otherwise the new row is inserted and
the handler redirects to the dashboard. -/
def admin_manual_registration (db : DB) (sess : Session) (req : ManualRegRequest) (newId : Nat) :
    HandlerResult :=
  if sess.admin_id.isNone then ⟨db, .redirect "admin_login", []⟩
  else
    match req with
    | .get => ⟨db, .render "Manual Registration", []⟩
    | .post form =>
      if (queryDuplicate db form.email form.contest_id).isSome then
        ⟨db, .render "Manual Registration",
          [⟨"Student with email " ++ form.email ++ " is already registered for this contest.", "error"⟩]⟩
      else
        let new_student : Student :=
          { id := newId, name := form.name, email := form.email, college := form.college,
            branch := form.branch, graduation_year := form.graduation_year,
            status := "Pending", test_link := none, score := none, contest_id := form.contest_id }
        ⟨{ db with students := db.students ++ [new_student] }, .redirect "admin_dashboard",
          [⟨"Student " ++ form.name ++ " registered successfully.", "success"⟩]⟩

/-- Route `/reset_admin_password/<token>` (`app1.py` lines 63-72). Gated only by
comparing the URL token with `RESET_TOKEN` — it never consults the session — and
on a match it overwrites the password hash of the admin named `admin`. -/
def reset_admin_password (db : DB) (token : String) : DB × Response :=
  if token ≠ RESET_TOKEN then (db, .http 403 "Unauthorized")
  else
    match queryAdminByUsername db "admin" with
    | some _ =>
      (updateAdminByUsername db "admin"
          (fun a => { a with password_hash := generate_password_hash "newStrongPassword123" }),
        .http 200 "Admin password reset successfully")
    | none => (db, .http 200 "Admin user not found")

/-- Stable insertion of a contest into a list sorted descending by `key`. -/
def insertByKeyDesc (key : Contest → Int) (c : Contest) : List Contest → List Contest
  | [] => [c]
  | d :: rest => if key d < key c then c :: d :: rest else d :: insertByKeyDesc key c rest

/-- `order_by(Contest.date.desc())`: stable insertion sort, descending by date. -/
def orderByDateDesc : List Contest → List Contest
  | [] => []
  | c :: rest => insertByKeyDesc (fun x => x.date) c (orderByDateDesc rest)

/-- Route `/results` (`app1.py` lines 1203-1206): the publicly visible contest
list is the contests whose `publish_results` flag is set, newest first. Returns
the list handed to the template together with the rendered response. -/
def public_results (db : DB) : List Contest × Response :=
  (orderByDateDesc (db.contests.filter (fun c => c.publish_results)),
    .render "Past Contest Results")

/-- The module-level `failed_login_attempts` dict: IP address mapped to
(attempt count, timestamp of the last recorded attempt). -/
abbrev FailedAttempts := List (String × Nat × Int)

/-- Dict lookup `failed_login_attempts[ip]`. -/
def lookupAttempts : FailedAttempts → String → Option (Nat × Int)
  | [], _ => none
  | (k, v) :: rest, ip => if k == ip then some v else lookupAttempts rest ip

/-- Dict assignment `failed_login_attempts[ip] = v`. -/
def setAttempts : FailedAttempts → String → Nat × Int → FailedAttempts
  | [], ip, v => [(ip, v)]
  | (k, v0) :: rest, ip, v => if k == ip then (ip, v) :: rest else (k, v0) :: setAttempts rest ip v

/-- Dict deletion `del failed_login_attempts[ip]` (no-op when absent). -/
def delAttempts : FailedAttempts → String → FailedAttempts
  | [], _ => []
  | (k, v0) :: rest, ip => if k == ip then rest else (k, v0) :: delAttempts rest ip

/-- `is_ip_locked_out` (`app1.py` lines 1676-1686). Locked when the IP has at
least `MAX_LOGIN_ATTEMPTS` recorded failures and the last one is younger than
`LOGIN_LOCKOUT_TIME`; an expired entry is deleted as a side effect, so the
function returns the possibly-updated dict as well. -/
def is_ip_locked_out (attempts_map : FailedAttempts) (now : Int) (ip_address : String) :
    Bool × FailedAttempts :=
  match lookupAttempts attempts_map ip_address with
  | some (attempts, timestamp) =>
    if MAX_LOGIN_ATTEMPTS ≤ attempts then
      if now - timestamp < LOGIN_LOCKOUT_TIME then (true, attempts_map)
      else (false, delAttempts attempts_map ip_address)
    else (false, attempts_map)
  | none => (false, attempts_map)

/-- `record_failed_attempt` (`app1.py` lines 1688-1695): increment the IP's
counter (starting at 1) and stamp it with the current time. -/
def record_failed_attempt (attempts_map : FailedAttempts) (now : Int) (ip_address : String) :
    FailedAttempts :=
  match lookupAttempts attempts_map ip_address with
  | some (attempts, _) => setAttempts attempts_map ip_address (attempts + 1, now)
  | none => setAttempts attempts_map ip_address (1, now)

/-- Request to `/admin/login`: a GET, a POST with `action=login`, or a POST with
`action=register` carrying the admin-registration fields. -/
inductive LoginRequest where
  | get
  | login (username password : String)
  | registerAdmin (reg_username reg_password reg_confirm_password security_code : String)
deriving DecidableEq

/-- Result of the `/admin/login` handler: it can change the store (admin
registration), the session (successful login) and the attempts dict. -/
structure LoginResult where
  db : DB
  sess : Session
  attempts : FailedAttempts
  resp : Response
  flashes : List Flash
deriving DecidableEq

/-- Route `/admin/login` (`app1.py` lines 1234-1323). A session already holding
`admin_id` is redirected to the dashboard before anything else; then the IP
lockout is checked before the request method is even inspected; a locked IP gets
the lockout flash and the login page. A failed `login` action records the
attempt; a successful one stores `admin_id` and clears the IP's counter. The
`register` action validates and, with the correct security code, inserts a new
`Admin` row (`newId` is the autoincrement key). -/
def admin_login (db : DB) (sess : Session) (attempts_map : FailedAttempts) (now : Int)
    (client_ip : String) (req : LoginRequest) (newId : Nat) : LoginResult :=
  if sess.admin_id.isSome then ⟨db, sess, attempts_map, .redirect "admin_dashboard", []⟩
  else
    let locked := is_ip_locked_out attempts_map now client_ip
    if locked.1 then
      let lastStamp := ((lookupAttempts attempts_map client_ip).map Prod.snd).getD 0
      ⟨db, sess, locked.2, .render "Admin Login",
        [⟨"Too many failed attempts. Please try again in " ++
          toString (LOGIN_LOCKOUT_TIME - (now - lastStamp)) ++ " seconds.", "error"⟩]⟩
    else
      match req with
      | .get => ⟨db, sess, locked.2, .render "Admin Login", []⟩
      | .login username password =>
        match queryAdminByUsername db username with
        | some admin =>
          if check_password_hash admin.password_hash password then
            ⟨db, { sess with admin_id := some admin.id }, delAttempts locked.2 client_ip,
              .redirect "admin_dashboard", []⟩
          else
            ⟨db, sess, record_failed_attempt locked.2 now client_ip, .render "Admin Login",
              [⟨"Invalid username or password.", "error"⟩]⟩
        | none =>
          ⟨db, sess, record_failed_attempt locked.2 now client_ip, .render "Admin Login",
            [⟨"Invalid username or password.", "error"⟩]⟩
      | .registerAdmin username password confirm code =>
        let is_first_admin := db.admins.length == 0
        if !pyTruthy username || !pyTruthy password then
          ⟨db, sess, locked.2, .render "Admin Login",
            [⟨"Username and password are required.", "error"⟩]⟩
        else if password ≠ confirm then
          ⟨db, sess, locked.2, .render "Admin Login", [⟨"Passwords do not match.", "error"⟩]⟩
        else if password.length < 6 then
          ⟨db, sess, locked.2, .render "Admin Login",
            [⟨"Password must be at least 6 characters long.", "error"⟩]⟩
        else if (queryAdminByUsername db username).isSome then
          ⟨db, sess, locked.2, .render "Admin Login", [⟨"Username already exists.", "error"⟩]⟩
        else if !pyTruthy code then
          ⟨db, sess, locked.2, .render "Admin Login",
            [⟨"Security code is required for admin registration.", "error"⟩]⟩
        else if code ≠ ADMIN_REGISTRATION_CODE then
          ⟨db, sess, record_failed_attempt locked.2 now client_ip, .render "Admin Login",
            [⟨"Invalid security code. Admin registration is restricted.", "error"⟩]⟩
        else
          ⟨{ db with admins := db.admins ++
              [{ id := newId, username := username, password_hash := generate_password_hash password }] },
            sess, locked.2, .redirect "admin_login",
            [⟨(if is_first_admin then "First admin account \"" else "Admin account \"") ++ username ++
              "\" created successfully! You can now login.", "success"⟩]⟩

/-- Form data for creating or editing a contest (`app1.py` lines 1346-1354 and
1367-1372), with dates and times already parsed (`strptime` abstracted; the
`if time_str else None` branch becomes the `Option`). -/
structure ContestForm where
  name : String
  date : Int
  test_time : Option Int
  syllabus : Option String
deriving DecidableEq

/-- Request to a contest-form route. -/
inductive ContestRequest where
  | get
  | post (form : ContestForm)
deriving DecidableEq

/-- Route `/admin/contests` (`app1.py` lines 1343-1361): session-gated; a POST
inserts a new `Contest` row with the column defaults `is_active=True`,
`publish_results=False`. -/
def admin_manage_contests (db : DB) (sess : Session) (req : ContestRequest) (newId : Nat) :
    HandlerResult :=
  if sess.admin_id.isNone then ⟨db, .redirect "admin_login", []⟩
  else
    match req with
    | .get => ⟨db, .render "Manage Contests", []⟩
    | .post form =>
      let new_contest : Contest :=
        { id := newId, name := form.name, date := form.date, test_time := form.test_time,
          syllabus := form.syllabus, is_active := true, publish_results := false }
      ⟨{ db with contests := db.contests ++ [new_contest] }, .redirect "admin_manage_contests",
        [⟨"Contest '" ++ form.name ++ "' created successfully.", "success"⟩]⟩

/-- Route `/admin/contests/edit/<contest_id>` (`app1.py` lines 1363-1376). -/
def admin_edit_contest (db : DB) (sess : Session) (contest_id : Nat) (req : ContestRequest) :
    HandlerResult :=
  if sess.admin_id.isNone then ⟨db, .redirect "admin_login", []⟩
  else
    match queryContest db contest_id with
    | none => ⟨db, .notFound, []⟩
    | some _ =>
      match req with
      | .get => ⟨db, .render "Edit Contest", []⟩
      | .post form =>
        ⟨updateContest db contest_id (fun c =>
            { c with name := form.name, date := form.date,
                     test_time := form.test_time, syllabus := form.syllabus }),
          .redirect "admin_manage_contests",
          [⟨"Contest '" ++ form.name ++ "' updated successfully.", "success"⟩]⟩

/-- Route `/admin/contests/toggle/<contest_id>` (`app1.py` lines 1391-1398). -/
def admin_toggle_contest (db : DB) (sess : Session) (contest_id : Nat) : HandlerResult :=
  if sess.admin_id.isNone then ⟨db, .redirect "admin_login", []⟩
  else
    match queryContest db contest_id with
    | none => ⟨db, .notFound, []⟩
    | some contest =>
      ⟨updateContest db contest_id (fun c => { c with is_active := !c.is_active }),
        .redirect "admin_manage_contests",
        [⟨"Contest '" ++ contest.name ++ "' status updated.", "success"⟩]⟩

/-- Route `/admin/contests/publish/<contest_id>` (`app1.py` lines 1400-1407):
session-gated toggle of exactly the `publish_results` flag; the flash reports
the post-toggle value. -/
def admin_toggle_publish (db : DB) (sess : Session) (contest_id : Nat) : HandlerResult :=
  if sess.admin_id.isNone then ⟨db, .redirect "admin_login", []⟩
  else
    match queryContest db contest_id with
    | none => ⟨db, .notFound, []⟩
    | some contest =>
      ⟨updateContest db contest_id (fun c => { c with publish_results := !c.publish_results }),
        .redirect "admin_past_contests",
        [⟨"Results for '" ++ contest.name ++ "' are now " ++
          (if !contest.publish_results then "published" else "hidden") ++ ".", "success"⟩]⟩

/-- Route `/admin/contests/delete/<contest_id>` (`app1.py` lines 1409-1416).
`db.session.delete(contest)` removes the fetched contest row; the relationship
`cascade="all, delete-orphan"` (`app1.py` line 82) removes every `Student` row
whose `contest_id` references it. -/
def admin_delete_contest (db : DB) (sess : Session) (contest_id : Nat) : HandlerResult :=
  if sess.admin_id.isNone then ⟨db, .redirect "admin_login", []⟩
  else
    match queryContest db contest_id with
    | none => ⟨db, .notFound, []⟩
    | some contest =>
      ⟨{ db with contests := db.contests.eraseP (fun c => c.id == contest_id),
                 students := db.students.filter (fun s => s.contest_id != contest_id) },
        .redirect "admin_manage_contests",
        [⟨"Contest '" ++ contest.name ++ "' and all its registrations have been deleted.",
          "success"⟩]⟩

/-- Route `/admin/delete_admin/<admin_id>` (`app1.py` lines 1431-1447):
session-gated; deleting the session's own admin id is rejected with an error;
otherwise the fetched `Admin` row is removed. -/
def admin_delete_admin (db : DB) (sess : Session) (admin_id : Nat) : HandlerResult :=
  match sess.admin_id with
  | none => ⟨db, .redirect "admin_login", []⟩
  | some current =>
    if admin_id == current then
      ⟨db, .redirect "admin_manage_admins", [⟨"You cannot delete your own account.", "error"⟩]⟩
    else
      match queryAdminById db admin_id with
      | none => ⟨db, .notFound, []⟩
      | some admin =>
        ⟨{ db with admins := db.admins.eraseP (fun a => a.id == admin_id) },
          .redirect "admin_manage_admins",
          [⟨"Admin account \"" ++ admin.username ++ "\" has been deleted successfully.", "success"⟩]⟩

/-- Route `/admin/delete_student/<student_id>` (`app1.py` lines 1449-1456). -/
def admin_delete_student (db : DB) (sess : Session) (student_id : Nat) : HandlerResult :=
  if sess.admin_id.isNone then ⟨db, .redirect "admin_login", []⟩
  else
    match queryStudent db student_id with
    | none => ⟨db, .notFound, []⟩
    | some student =>
      ⟨{ db with students := db.students.eraseP (fun s => s.id == student_id) },
        .redirect "admin_dashboard",
        [⟨"Registration for " ++ student.name ++ " has been deleted.", "success"⟩]⟩

/-- Upsert of a `ContestSetting` row by its unique key (the shared shape of the
settings routes, `app1.py` lines 1462-1467 and 1477-1480). -/
def upsertSetting (db : DB) (k : String) (v : Option String) (newId : Nat) : DB :=
  match querySetting db k with
  | some _ =>
    { db with settings := db.settings.map (fun s => if s.key == k then { s with value := v } else s) }
  | none => { db with settings := db.settings ++ [{ id := newId, key := k, value := v }] }

/-- Request to `/admin/settings`. -/
inductive SettingsRequest where
  | get
  | post (global_test_link : Option String)
deriving DecidableEq

/-- Route `/admin/settings` (`app1.py` lines 1458-1471). -/
def admin_settings (db : DB) (sess : Session) (req : SettingsRequest) (newId : Nat) :
    HandlerResult :=
  if sess.admin_id.isNone then ⟨db, .redirect "admin_login", []⟩
  else
    match req with
    | .get => ⟨db, .render "Global Settings", []⟩
    | .post link =>
      ⟨upsertSetting db "global_test_link" link newId, .redirect "admin_settings",
        [⟨"Global settings saved successfully!", "success"⟩]⟩

/-- Request to `/admin/email_settings`. -/
inductive EmailSettingsRequest where
  | get
  | post (mail_username mail_app_password : Option String)
deriving DecidableEq

/-- Route `/admin/email_settings` (`app1.py` lines 1473-1486): upserts the two
mail keys in order. -/
def admin_email_settings (db : DB) (sess : Session) (req : EmailSettingsRequest)
    (newId1 newId2 : Nat) : HandlerResult :=
  if sess.admin_id.isNone then ⟨db, .redirect "admin_login", []⟩
  else
    match req with
    | .get => ⟨db, .render "Email Settings", []⟩
    | .post u p =>
      ⟨upsertSetting (upsertSetting db "mail_username" u newId1) "mail_app_password" p newId2,
        .redirect "admin_email_settings", [⟨"Email settings saved successfully!", "success"⟩]⟩

/-- `configure_mailer` (`app1.py` lines 1488-1496): true when both mail settings
exist and hold truthy values. -/
def configure_mailer (db : DB) : Bool :=
  match querySetting db "mail_username", querySetting db "mail_app_password" with
  | some u, some p =>
    (u.value.map pyTruthy).getD false && (p.value.map pyTruthy).getD false
  | _, _ => false

/-- Route `/admin/assign_and_email_all` (`app1.py` lines 1498-1532): assigns the
global test link to every accepted student without one and mails them (delivery
modelled as succeeding; the flash reports the number of students notified). -/
def assign_and_email_all (db : DB) (sess : Session) : HandlerResult :=
  if sess.admin_id.isNone then ⟨db, .redirect "admin_login", []⟩
  else if !configure_mailer db then
    ⟨db, .redirect "admin_email_settings",
      [⟨"Email settings are not configured. Please configure them first.", "error"⟩]⟩
  else
    match querySetting db "global_test_link" with
    | none =>
      ⟨db, .redirect "admin_settings",
        [⟨"Please set a global test link in Global Settings first.", "error"⟩]⟩
    | some setting =>
      if !((setting.value.map pyTruthy).getD false) then
        ⟨db, .redirect "admin_settings",
          [⟨"Please set a global test link in Global Settings first.", "error"⟩]⟩
      else
        let link := setting.value.getD ""
        let students_to_notify := db.students.filter (fun s => s.status == "Accepted" && s.test_link.isNone)
        if students_to_notify.isEmpty then
          ⟨db, .redirect "admin_dashboard", [⟨"No new accepted students to notify.", "info"⟩]⟩
        else
          ⟨{ db with students := db.students.map (fun s =>
              if s.status == "Accepted" && s.test_link.isNone then { s with test_link := some link } else s) },
            .redirect "admin_dashboard",
            [⟨"Assigned test link and sent notifications to " ++
              toString students_to_notify.length ++ " students.", "success"⟩]⟩

/-- Form data of `/admin/edit_student/<student_id>` (`app1.py` line 1555): every
submitted field, including `status`, is written to the row as-is. -/
structure EditStudentForm where
  name : String
  email : String
  college : String
  branch : String
  graduation_year : Option Int
  status : String
deriving DecidableEq

/-- Request to `/admin/edit_student/<student_id>`. -/
inductive EditStudentRequest where
  | get
  | post (form : EditStudentForm)
deriving DecidableEq

/-- Route `/admin/edit_student/<student_id>` (`app1.py` lines 1550-1561): the
POST assigns all six form fields to the fetched row and commits; the `status`
value is not validated against the Pending/Accepted/Denied enum. -/
def admin_edit_student (db : DB) (sess : Session) (student_id : Nat) (req : EditStudentRequest) :
    HandlerResult :=
  if sess.admin_id.isNone then ⟨db, .redirect "admin_login", []⟩
  else
    match queryStudent db student_id with
    | none => ⟨db, .notFound, []⟩
    | some _ =>
      match req with
      | .get => ⟨db, .render "Edit Student", []⟩
      | .post form =>
        ⟨updateStudent db student_id (fun s =>
            { s with name := form.name, email := form.email, college := form.college,
                     branch := form.branch, graduation_year := form.graduation_year,
                     status := form.status }),
          .redirect "admin_dashboard",
          [⟨"Details for " ++ form.name ++ " have been updated.", "success"⟩]⟩

/-- Route `/admin/update_status/<student_id>/<status>` (`app1.py` lines
1566-1574): the status is written only when it is `Accepted` or `Denied`; any
other value leaves the row untouched, and either way the handler redirects to
the dashboard. -/
def update_status (db : DB) (sess : Session) (student_id : Nat) (status : String) :
    HandlerResult :=
  if sess.admin_id.isNone then ⟨db, .redirect "admin_login", []⟩
  else
    match queryStudent db student_id with
    | none => ⟨db, .notFound, []⟩
    | some student =>
      if status == "Accepted" || status == "Denied" then
        ⟨updateStudent db student_id (fun s => { s with status := status }),
          .redirect "admin_dashboard",
          [⟨"Student " ++ student.name ++ "'s application has been " ++
            asciiLower status ++ ".", "success"⟩]⟩
      else ⟨db, .redirect "admin_dashboard", []⟩

/-- Rendering of an optional integer column in a CSV cell: Python's `csv.writer`
writes `None` as the empty string and an int via `str`. -/
def csvOptInt : Option Int → String
  | none => ""
  | some n => toString n

/-- Rendering of an optional string column in a CSV cell. -/
def csvOptStr : Option String → String
  | none => ""
  | some s => s

/-- One data row of the CSV export (`app1.py` line 1603): the student's fields
followed by `s.contest.name`, the name of the contest row the student's
`contest_id` references (foreign-key integrity makes the lookup total). -/
def csvRow (db : DB) (s : Student) : List String :=
  [toString s.id, s.name, s.email, s.college, s.branch, csvOptInt s.graduation_year,
    s.status, csvOptStr s.test_link, csvOptInt s.score,
    ((queryContest db s.contest_id).map Contest.name).getD ""]

/-- Header row of the CSV export (`app1.py` line 1601). -/
def csvHeader : List String :=
  ["ID", "Name", "Email", "College", "Branch", "Graduation Year", "Status", "Test Link",
    "Score", "Contest"]

/-- Route `/admin/export/csv` (`app1.py` lines 1592-1608): session-gated; with
no students it flashes an error and redirects to the dashboard producing no
file; otherwise it returns the CSV attachment with the header row followed by
one row per student, in store order. -/
def admin_export_csv (db : DB) (sess : Session) : HandlerResult :=
  if sess.admin_id.isNone then ⟨db, .redirect "admin_login", []⟩
  else if db.students.isEmpty then
    ⟨db, .redirect "admin_dashboard", [⟨"No students found to export.", "error"⟩]⟩
  else
    ⟨db, .csvFile "all_students.csv" (csvHeader :: db.students.map (csvRow db)), []⟩

/-- Route `/admin/update_test_info/<student_id>` (`app1.py` lines 1610-1624), a
POST-only form. `test_link` is `request.form.get('test_link')` (None when the
field is missing) and is assigned unconditionally; the score is
`int(score) if score and score.isdigit() else None`. The redirect target
depends on whether the referrer mentions `past_contests`. -/
def update_test_info (db : DB) (sess : Session) (student_id : Nat)
    (test_link : Option String) (score : Option String) (referrer : Option String) :
    HandlerResult :=
  if sess.admin_id.isNone then ⟨db, .redirect "admin_login", []⟩
  else
    match queryStudent db student_id with
    | none => ⟨db, .notFound, []⟩
    | some student =>
      let new_score : Option Int :=
        match score with
        | some sc => if pyTruthy sc && pyIsDigit sc then some (pyInt sc) else none
        | none => none
      ⟨updateStudent db student_id (fun s => { s with test_link := test_link, score := new_score }),
        (if (referrer.map (pyInStr "past_contests")).getD false then
          .redirect "admin_view_contest_results"
        else .redirect "admin_dashboard"),
        [⟨"Information for " ++ student.name ++ " has been updated.", "success"⟩]⟩

/-- Appending one element preserves `Pairwise` when it is related to all. -/
theorem pairwise_append_single {α : Type} (R : α → α → Prop) (l : List α) (x : α)
    (h : l.Pairwise R) (hx : ∀ b ∈ l, R b x) : (l ++ [x]).Pairwise R := by
  rw [List.pairwise_append]
  exact ⟨h, List.pairwise_singleton R x, by simpa using hx⟩

/-- Uniqueness invariant backing the `_email_contest_uc` unique constraint
(`app1.py` line 95): no two student rows share an (email, contest) pair. -/
def uniqueEmailContest (db : DB) : Prop :=
  db.students.Pairwise (fun a b => ¬(a.email = b.email ∧ a.contest_id = b.contest_id))

/-- C1: for every contest and email, at most one Student registration with that
(email, contest) pair exists: a registration attempt through the public
`register` route or the admin manual-registration route for a pair that is
already registered is rejected with an error flash and leaves the set of
Student records unchanged, and both routes preserve the uniqueness invariant. -/
theorem registration_keeps_email_contest_unique (db : DB) (newId cid : Nat)
    (sess : Session) (rform : RegistrationForm) (mform : ManualRegistrationForm) :
    ((queryContest db cid).isSome →
      (∃ s ∈ db.students, s.email = rform.email ∧ s.contest_id = cid) →
      (register db cid (.post rform) newId).db = db ∧
      ∃ f ∈ (register db cid (.post rform) newId).flashes, f.category = "error") ∧
    ((∃ s ∈ db.students, s.email = mform.email ∧ s.contest_id = mform.contest_id) →
      sess.admin_id.isSome →
      (admin_manual_registration db sess (.post mform) newId).db = db ∧
      ∃ f ∈ (admin_manual_registration db sess (.post mform) newId).flashes, f.category = "error") ∧
    (uniqueEmailContest db →
      (∀ req : RegisterRequest, uniqueEmailContest (register db cid req newId).db) ∧
      (∀ req : ManualRegRequest, uniqueEmailContest (admin_manual_registration db sess req newId).db)) := by
  refine ⟨?_, ?_, ?_⟩
  · intro hsome hdup
    rcases Option.isSome_iff_exists.mp hsome with ⟨c, hc⟩
    have hcid : c.id = cid := by
      have := List.find?_some hc
      simpa using this
    have hdupsome : (queryDuplicate db rform.email c.id).isSome := by
      rcases hdup with ⟨s, hs, he, hcont⟩
      rw [← Option.ne_none_iff_isSome]
      intro hnone
      unfold queryDuplicate at hnone
      have := List.find?_eq_none.mp hnone s hs
      simp [he, hcont, hcid] at this
    unfold register
    rw [hc]
    by_cases hact : c.is_active
    · simp [hact, hdupsome]
    · simp [hact]
  · intro hdup hadm
    have hdupsome : (queryDuplicate db mform.email mform.contest_id).isSome := by
      rcases hdup with ⟨s, hs, he, hcont⟩
      rw [← Option.ne_none_iff_isSome]
      intro hnone
      unfold queryDuplicate at hnone
      have := List.find?_eq_none.mp hnone s hs
      simp [he, hcont] at this
    unfold admin_manual_registration
    have : sess.admin_id.isNone = false := by
      rcases Option.isSome_iff_exists.mp hadm with ⟨a, ha⟩
      simp [ha]
    simp [this, hdupsome]
  · intro huniq
    constructor
    · intro req
      unfold register
      rcases hfind : queryContest db cid with _ | c
      · exact huniq
      · by_cases hact : c.is_active
        · rcases req with _ | form
          · simpa [hact] using huniq
          · rcases hdup : (queryDuplicate db form.email c.id).isSome with _ | _
            · simp only [hact, Bool.not_true, Bool.false_eq_true, if_false, hdup, if_false]
              refine pairwise_append_single _ _ _ huniq ?_
              intro b hb
              have hnone : queryDuplicate db form.email c.id = none := by
                rcases h' : queryDuplicate db form.email c.id with _ | s
                · rfl
                · rw [h'] at hdup; simp at hdup
              unfold queryDuplicate at hnone
              have := List.find?_eq_none.mp hnone b hb
              simp only [Bool.and_eq_true, beq_iff_eq, not_and] at this
              intro hcontra
              exact this hcontra.1 hcontra.2
            · simp only [hact, Bool.not_true, Bool.false_eq_true, if_false, hdup, if_true]
              exact huniq
        · simpa [hact] using huniq
    · intro req
      unfold admin_manual_registration
      rcases hadm : sess.admin_id.isNone with _ | _
      · rcases req with _ | form
        · simpa [hadm] using huniq
        · rcases hdup : (queryDuplicate db form.email form.contest_id).isSome with _ | _
          · simp only [hadm, Bool.false_eq_true, if_false, hdup, if_false]
            refine pairwise_append_single _ _ _ huniq ?_
            intro b hb
            have hnone : queryDuplicate db form.email form.contest_id = none := by
              rcases h' : queryDuplicate db form.email form.contest_id with _ | s
              · rfl
              · rw [h'] at hdup; simp at hdup
            unfold queryDuplicate at hnone
            have := List.find?_eq_none.mp hnone b hb
            simp only [Bool.and_eq_true, beq_iff_eq, not_and] at this
            intro hcontra
            exact this hcontra.1 hcontra.2
          · simp only [hadm, Bool.false_eq_true, if_false, hdup, if_true]
            exact huniq
      · simpa [hadm] using huniq

/-- Sample admin row for concrete instantiations. -/
def adminRoot : Admin := ⟨1, "root", "pw"⟩

/-- Second sample admin row. -/
def adminSecond : Admin := ⟨2, "helper", "pw2"⟩

/-- Sample active unpublished contest. -/
def contest1 : Contest := ⟨1, "CodeFest", 100, none, none, true, false⟩

/-- Sample active published contest. -/
def contest2 : Contest := ⟨2, "HackNight", 50, none, some "Graphs", true, true⟩

/-- Sample pending registration in contest 1. -/
def studentAlice : Student := ⟨1, "Alice", "alice@example.com", "NIT Nagaland", "CSE", some 2026, "Pending", none, none, 1⟩

/-- Sample accepted registration in contest 2, with a test link and a score. -/
def studentBob : Student := ⟨2, "Bob", "bob@example.com", "NIT Nagaland", "ECE", some 2025, "Accepted", some "http://test", some 50, 2⟩

/-- Store with one admin, one contest, one student. -/
def dbOne : DB := ⟨[adminRoot], [contest1], [studentAlice], []⟩

/-- Store with two admins, two contests, two students. -/
def dbTwo : DB := ⟨[adminRoot, adminSecond], [contest1, contest2], [studentAlice, studentBob], []⟩

/-- Store whose only admin is the account named `admin`, as `reset_admin_password` expects. -/
def dbReset : DB := ⟨[⟨1, "admin", "oldHash"⟩], [], [], []⟩

/-- Session of a logged-in admin with id 1. -/
def sessAdmin : Session := ⟨some 1, none⟩

/-- Fresh session with no flags. -/
def sessNone : Session := ⟨none, none⟩

/-- Attempts dict in which IP 10.0.0.1 has 5 failures, the last at time 0. -/
def lockedMap : FailedAttempts := [("10.0.0.1", 5, 0)]

/-- Dict lookup after assignment at the same key. -/
theorem lookupAttempts_set (m : FailedAttempts) (ip : String) (v : Nat × Int) :
    lookupAttempts (setAttempts m ip v) ip = some v := by
  induction m with
  | nil => simp [setAttempts, lookupAttempts]
  | cons kv rest ih =>
    rcases kv with ⟨k, v0⟩
    by_cases hk : k == ip
    · simp [setAttempts, hk, lookupAttempts]
    · simp only [setAttempts, hk, Bool.false_eq_true, if_false, lookupAttempts]
      simp [hk, ih]

/-- With pairwise-distinct keys, erasing the first row carrying key `k` is the
same as filtering out every row carrying key `k`. -/
theorem eraseP_key_eq_filter {α : Type} (key : α → Nat) (k : Nat) :
    ∀ l : List α, (l.map key).Nodup →
      l.eraseP (fun a => key a == k) = l.filter (fun a => key a != k) := by
  intro l
  induction l with
  | nil => intro _; rfl
  | cons x xs ih =>
    intro hnd
    rw [List.map_cons, List.nodup_cons] at hnd
    by_cases hx : key x = k
    · have h1 : (key x == k) = true := by simp [hx]
      have h2 : (key x != k) = false := by simp [hx]
      rw [List.eraseP_cons, List.filter_cons, h1, h2]
      simp only [cond_true, Bool.false_eq_true, if_false]
      symm
      rw [List.filter_eq_self]
      intro a ha
      have : key a ≠ key x := by
        intro heq
        exact hnd.1 (heq ▸ List.mem_map_of_mem key ha)
      simp [hx ▸ this]
    · have h1 : (key x == k) = false := by simp [hx]
      have h2 : (key x != k) = true := by simp [hx]
      rw [List.eraseP_cons, List.filter_cons, h1, h2]
      simp only [cond_false, if_true]
      rw [ih hnd.2]

/-- Membership through stable descending insertion. -/
theorem mem_insertByKeyDesc (key : Contest → Int) (c d : Contest) (l : List Contest) :
    d ∈ insertByKeyDesc key c l ↔ (d = c ∨ d ∈ l) := by
  induction l with
  | nil => simp [insertByKeyDesc]
  | cons e rest ih =>
    unfold insertByKeyDesc
    by_cases h : key e < key c
    · simp [h]
    · simp only [h, if_false, List.mem_cons, ih]
      tauto

/-- Membership through the descending date sort. -/
theorem mem_orderByDateDesc (d : Contest) (l : List Contest) :
    d ∈ orderByDateDesc l ↔ d ∈ l := by
  induction l with
  | nil => simp [orderByDateDesc]
  | cons c rest ih => simp [orderByDateDesc, mem_insertByKeyDesc, ih]

/-- Duplicate public-registration form matching `studentAlice`'s (email, contest) pair. -/
def regformDup : RegistrationForm := ⟨"Alice A.", "alice@example.com", "NIT Nagaland", "CSE", some 2026⟩

/-- Duplicate manual-registration form matching `studentAlice`'s (email, contest) pair. -/
def manformDup : ManualRegistrationForm := ⟨"Alice A.", "alice@example.com", "NIT Nagaland", "CSE", some 2026, 1⟩

/-- Concrete instantiation of `registration_keeps_email_contest_unique`. -/
theorem registration_keeps_email_contest_unique_witness :
    (register dbOne 1 (.post regformDup) 2).db = dbOne ∧
    (∃ f ∈ (register dbOne 1 (.post regformDup) 2).flashes, f.category = "error") ∧
    (admin_manual_registration dbOne sessAdmin (.post manformDup) 2).db = dbOne ∧
    (∃ f ∈ (admin_manual_registration dbOne sessAdmin (.post manformDup) 2).flashes, f.category = "error") ∧
    uniqueEmailContest (admin_manual_registration dbOne sessAdmin (.post manformDup) 2).db := by
  have h := registration_keeps_email_contest_unique dbOne 2 1 sessAdmin regformDup manformDup
  have h1 := h.1 (by decide) (by decide)
  have h2 := h.2.1 (by decide) (by decide)
  have h3 := (h.2.2 (List.pairwise_singleton _ _)).2 (.post manformDup)
  exact ⟨h1.1, h1.2, h2.1, h2.2, h3⟩

/-- Recording a failed attempt leaves the IP mapped to an incremented count
(starting from 0 when absent) stamped with the current time. -/
theorem lookupAttempts_record (m : FailedAttempts) (now : Int) (ip : String) :
    lookupAttempts (record_failed_attempt m now ip) ip =
      some ((((lookupAttempts m ip).map Prod.fst).getD 0) + 1, now) := by
  unfold record_failed_attempt
  rcases h : lookupAttempts m ip with _ | ⟨a0, t0⟩
  · simp [lookupAttempts_set]
  · simp [lookupAttempts_set]

/-- C2 fails as stated: a request from a locked-out IP whose session already
holds `admin_id` is redirected to the dashboard with no lockout flash, because
`/admin/login` checks the session before the lockout. Here IP 10.0.0.1 has
`MAX_LOGIN_ATTEMPTS` recorded failures 10 seconds ago, well within
`LOGIN_LOCKOUT_TIME`, yet the response carries no lockout message. -/
theorem admin_login_lockout_counterexample :
    lookupAttempts lockedMap "10.0.0.1" = some (5, 0) ∧
    MAX_LOGIN_ATTEMPTS ≤ 5 ∧ ((10 : Int) - 0 < LOGIN_LOCKOUT_TIME) ∧
    (admin_login dbOne sessAdmin lockedMap 10 "10.0.0.1" .get 2).resp = .redirect "admin_dashboard" ∧
    (admin_login dbOne sessAdmin lockedMap 10 "10.0.0.1" .get 2).flashes = [] := by
  decide

/-- C2 (amended): each failed admin login attempt from an IP is recorded, and
once an IP has accumulated `MAX_LOGIN_ATTEMPTS` (5) failures, every subsequent
`admin_login` request from that IP whose session does not already hold
`admin_id` is, within `LOGIN_LOCKOUT_TIME` (300 s) of the last recorded
attempt, rejected with the lockout flash and performs no authentication: store,
session and attempts dict are all unchanged. -/
theorem admin_login_lockout_enforced (db : DB) (sess : Session) (m : FailedAttempts)
    (now : Int) (ip : String) (req : LoginRequest) (newId : Nat) (a : Nat) (t : Int)
    (hsess : sess.admin_id = none)
    (hlook : lookupAttempts m ip = some (a, t))
    (ha : MAX_LOGIN_ATTEMPTS ≤ a)
    (ht : now - t < LOGIN_LOCKOUT_TIME) :
    (admin_login db sess m now ip req newId).db = db ∧
    (admin_login db sess m now ip req newId).sess = sess ∧
    (admin_login db sess m now ip req newId).attempts = m ∧
    (admin_login db sess m now ip req newId).resp = .render "Admin Login" ∧
    (admin_login db sess m now ip req newId).flashes =
      [⟨"Too many failed attempts. Please try again in " ++
        toString (LOGIN_LOCKOUT_TIME - (now - t)) ++ " seconds.", "error"⟩] ∧
    (∀ (m2 : FailedAttempts) (u p : String),
      (is_ip_locked_out m2 now ip).1 = false →
      (queryAdminByUsername db u = none ∨
        (∃ ad, queryAdminByUsername db u = some ad ∧ check_password_hash ad.password_hash p = false)) →
      lookupAttempts (admin_login db sess m2 now ip (.login u p) newId).attempts ip =
        some ((((lookupAttempts (is_ip_locked_out m2 now ip).2 ip).map Prod.fst).getD 0) + 1, now)) := by
  have hnotsome : sess.admin_id.isSome = false := by simp [hsess]
  have hlocked : is_ip_locked_out m now ip = (true, m) := by
    unfold is_ip_locked_out
    rw [hlook]
    simp [ha, ht]
  have hmain : admin_login db sess m now ip req newId =
      ⟨db, sess, m, .render "Admin Login",
        [⟨"Too many failed attempts. Please try again in " ++
          toString (LOGIN_LOCKOUT_TIME - (now - t)) ++ " seconds.", "error"⟩]⟩ := by
    unfold admin_login
    simp [hnotsome, hlocked, hlook]
  refine ⟨by rw [hmain], by rw [hmain], by rw [hmain], by rw [hmain], by rw [hmain], ?_⟩
  intro m2 u p hnl hcred
  unfold admin_login
  simp only [hnotsome, Bool.false_eq_true, if_false]
  rcases hcred with hnone | ⟨ad, had, hbad⟩
  · simp [hnl, hnone, lookupAttempts_record]
  · simp [hnl, had, hbad, lookupAttempts_record]

/-- Concrete instantiation of `admin_login_lockout_enforced`. -/
theorem admin_login_lockout_enforced_witness :
    (admin_login dbOne sessNone lockedMap 10 "10.0.0.1" .get 2).resp = .render "Admin Login" ∧
    (admin_login dbOne sessNone lockedMap 10 "10.0.0.1" .get 2).flashes =
      [⟨"Too many failed attempts. Please try again in 290 seconds.", "error"⟩] ∧
    (admin_login dbOne sessNone lockedMap 10 "10.0.0.1" .get 2).attempts = lockedMap ∧
    lookupAttempts (admin_login dbOne sessNone [] 10 "10.0.0.1" (.login "ghost" "x") 2).attempts
      "10.0.0.1" = some (1, 10) := by
  have h := admin_login_lockout_enforced dbOne sessNone lockedMap 10 "10.0.0.1" .get 2 5 0
    rfl (by decide) (by decide) (by decide)
  refine ⟨h.2.2.2.1, ?_, h.2.2.1, ?_⟩
  · rw [h.2.2.2.2.1]
    decide
  · have h6 := h.2.2.2.2.2 [] "ghost" "x" (by decide) (Or.inl (by decide))
    rw [h6]
    decide

/-- C3 fails as stated: `reset_admin_password` updates the store (it overwrites
the admin password hash) yet is gated by a secret URL token, not by any session
flag — the handler never consults the session at all — and it answers 200
instead of redirecting to a login page. -/
theorem mutation_gating_counterexample :
    (reset_admin_password dbReset RESET_TOKEN).1 ≠ dbReset ∧
    (reset_admin_password dbReset RESET_TOKEN).2 = .http 200 "Admin password reset successfully" ∧
    (reset_admin_password dbReset RESET_TOKEN).1.admins =
      [⟨1, "admin", generate_password_hash "newStrongPassword123"⟩] := by
  decide

/-- C3 (amended): every admin route that creates, updates or deletes store rows
and requires login is gated by the `'admin_id'` session check — when the flag
is absent the handler redirects to the admin login page and leaves the store
untouched; the exceptions that mutate the store without a session-flag check
are the public `register` route, the `admin_login` registration action (gated
by a security code) and `reset_admin_password` (gated by a secret URL token). -/
theorem admin_mutation_routes_gated (db : DB) (sess : Session)
    (hsess : sess.admin_id = none) :
    (∀ req newId, admin_manage_contests db sess req newId = ⟨db, .redirect "admin_login", []⟩) ∧
    (∀ cid req, admin_edit_contest db sess cid req = ⟨db, .redirect "admin_login", []⟩) ∧
    (∀ cid, admin_toggle_contest db sess cid = ⟨db, .redirect "admin_login", []⟩) ∧
    (∀ cid, admin_toggle_publish db sess cid = ⟨db, .redirect "admin_login", []⟩) ∧
    (∀ cid, admin_delete_contest db sess cid = ⟨db, .redirect "admin_login", []⟩) ∧
    (∀ aid, admin_delete_admin db sess aid = ⟨db, .redirect "admin_login", []⟩) ∧
    (∀ sid, admin_delete_student db sess sid = ⟨db, .redirect "admin_login", []⟩) ∧
    (∀ req newId, admin_settings db sess req newId = ⟨db, .redirect "admin_login", []⟩) ∧
    (∀ req newId1 newId2, admin_email_settings db sess req newId1 newId2 = ⟨db, .redirect "admin_login", []⟩) ∧
    (assign_and_email_all db sess = ⟨db, .redirect "admin_login", []⟩) ∧
    (∀ req newId, admin_manual_registration db sess req newId = ⟨db, .redirect "admin_login", []⟩) ∧
    (∀ sid req, admin_edit_student db sess sid req = ⟨db, .redirect "admin_login", []⟩) ∧
    (∀ sid st, update_status db sess sid st = ⟨db, .redirect "admin_login", []⟩) ∧
    (∀ sid tl sc ref, update_test_info db sess sid tl sc ref = ⟨db, .redirect "admin_login", []⟩) := by
  have hnone : sess.admin_id.isNone = true := by simp [hsess]
  refine ⟨?_, ?_, ?_, ?_, ?_, ?_, ?_, ?_, ?_, ?_, ?_, ?_, ?_, ?_⟩
  · intro req newId; unfold admin_manage_contests; rw [hnone]; rfl
  · intro cid req; unfold admin_edit_contest; rw [hnone]; rfl
  · intro cid; unfold admin_toggle_contest; rw [hnone]; rfl
  · intro cid; unfold admin_toggle_publish; rw [hnone]; rfl
  · intro cid; unfold admin_delete_contest; rw [hnone]; rfl
  · intro aid; unfold admin_delete_admin; rw [hsess]
  · intro sid; unfold admin_delete_student; rw [hnone]; rfl
  · intro req newId; unfold admin_settings; rw [hnone]; rfl
  · intro req newId1 newId2; unfold admin_email_settings; rw [hnone]; rfl
  · unfold assign_and_email_all; rw [hnone]; rfl
  · intro req newId; unfold admin_manual_registration; rw [hnone]; rfl
  · intro sid req; unfold admin_edit_student; rw [hnone]; rfl
  · intro sid st; unfold update_status; rw [hnone]; rfl
  · intro sid tl sc ref; unfold update_test_info; rw [hnone]; rfl

/-- Concrete instantiation of `admin_mutation_routes_gated`. -/
theorem admin_mutation_routes_gated_witness :
    admin_delete_contest dbOne sessNone 1 = ⟨dbOne, .redirect "admin_login", []⟩ ∧
    update_test_info dbOne sessNone 1 (some "http://t") (some "99") none =
      ⟨dbOne, .redirect "admin_login", []⟩ ∧
    update_status dbOne sessNone 1 "Accepted" = ⟨dbOne, .redirect "admin_login", []⟩ ∧
    admin_delete_admin dbOne sessNone 1 = ⟨dbOne, .redirect "admin_login", []⟩ ∧
    assign_and_email_all dbOne sessNone = ⟨dbOne, .redirect "admin_login", []⟩ := by
  have h := admin_mutation_routes_gated dbOne sessNone rfl
  exact ⟨h.2.2.2.2.1 1, h.2.2.2.2.2.2.2.2.2.2.2.2.2 1 (some "http://t") (some "99") none,
    h.2.2.2.2.2.2.2.2.2.2.2.2.1 1 "Accepted", h.2.2.2.2.2.1 1, h.2.2.2.2.2.2.2.2.2.1⟩

/-- The spec's status enum: a student's status is Pending, Accepted or Denied. -/
def studentStatusOk (s : Student) : Prop :=
  s.status = "Pending" ∨ s.status = "Accepted" ∨ s.status = "Denied"

instance (s : Student) : Decidable (studentStatusOk s) := by
  unfold studentStatusOk
  infer_instance

/-- C4 fails as stated: `admin_edit_student` writes the submitted status string
to the row without validating it against the enum, so a POST carrying a status
outside Pending/Accepted/Denied produces a reachable state violating the
invariant, starting from a store that satisfies it. -/
theorem student_status_enum_counterexample :
    (∀ s ∈ dbOne.students, studentStatusOk s) ∧
    ¬(∀ s ∈ (admin_edit_student dbOne sessAdmin 1
        (.post ⟨"Alice", "alice@example.com", "NIT Nagaland", "CSE", some 2026, "Garbage"⟩)).db.students,
        studentStatusOk s) := by
  decide

/-- C4 (amended): registration (public and manual) creates students with status
`Pending`, and `update_status` writes only `Accepted` or `Denied`, so these
operations preserve the status enum invariant unconditionally; but
`admin_edit_student` stores the submitted status string unvalidated, so it
preserves the invariant only when the submitted status is itself one of
Pending/Accepted/Denied. -/
theorem student_status_enum_preserved (db : DB) (sess : Session)
    (hall : ∀ s ∈ db.students, studentStatusOk s) :
    (∀ cid req newId, ∀ s ∈ (register db cid req newId).db.students, studentStatusOk s) ∧
    (∀ req newId, ∀ s ∈ (admin_manual_registration db sess req newId).db.students, studentStatusOk s) ∧
    (∀ sid st, ∀ s ∈ (update_status db sess sid st).db.students, studentStatusOk s) ∧
    (∀ sid form, (form.status = "Pending" ∨ form.status = "Accepted" ∨ form.status = "Denied") →
      ∀ s ∈ (admin_edit_student db sess sid (.post form)).db.students, studentStatusOk s) := by
  refine ⟨?_, ?_, ?_, ?_⟩
  · intro cid req newId
    unfold register
    rcases hfind : queryContest db cid with _ | c
    · exact hall
    · by_cases hact : c.is_active
      · rcases req with _ | form
        · simpa [hact] using hall
        · rcases hdup : (queryDuplicate db form.email c.id).isSome with _ | _
          · simp only [hact, Bool.not_true, Bool.false_eq_true, if_false, hdup]
            intro s hs
            rcases List.mem_append.mp hs with h1 | h1
            · exact hall s h1
            · rcases List.mem_singleton.mp h1 with rfl
              left; rfl
          · simp only [hact, Bool.not_true, Bool.false_eq_true, if_false, hdup, if_true]
            exact hall
      · simpa [hact] using hall
  · intro req newId
    unfold admin_manual_registration
    rcases hadm : sess.admin_id.isNone with _ | _
    · rcases req with _ | form
      · simpa [hadm] using hall
      · rcases hdup : (queryDuplicate db form.email form.contest_id).isSome with _ | _
        · simp only [hadm, Bool.false_eq_true, if_false, hdup]
          intro s hs
          rcases List.mem_append.mp hs with h1 | h1
          · exact hall s h1
          · rcases List.mem_singleton.mp h1 with rfl
            left; rfl
        · simp only [hadm, Bool.false_eq_true, if_false, hdup, if_true]
          exact hall
    · simpa [hadm] using hall
  · intro sid st
    unfold update_status
    rcases hadm : sess.admin_id.isNone with _ | _
    · rcases hfind : queryStudent db sid with _ | student
      · simpa [hadm] using hall
      · rcases hval : (st == "Accepted" || st == "Denied") with _ | _
        · simp only [hadm, Bool.false_eq_true, if_false, hval]
          exact hall
        · simp only [hadm, Bool.false_eq_true, if_false, hval, if_true]
          intro s hs
          rcases List.mem_map.mp hs with ⟨s0, hs0, rfl⟩
          by_cases hid : (s0.id == sid) = true
          · rw [if_pos hid]
            have : st = "Accepted" ∨ st = "Denied" := by
              rcases Bool.or_eq_true_iff.mp hval with h | h
              · left; exact beq_iff_eq.mp h
              · right; exact beq_iff_eq.mp h
            rcases this with h | h
            · right; left; exact h
            · right; right; exact h
          · rw [if_neg hid]
            exact hall s0 hs0
    · simpa [hadm] using hall
  · intro sid form hform
    unfold admin_edit_student
    rcases hadm : sess.admin_id.isNone with _ | _
    · rcases hfind : queryStudent db sid with _ | student
      · simpa [hadm] using hall
      · simp only [hadm, Bool.false_eq_true, if_false]
        intro s hs
        rcases List.mem_map.mp hs with ⟨s0, hs0, rfl⟩
        by_cases hid : (s0.id == sid) = true
        · rw [if_pos hid]
          exact hform
        · rw [if_neg hid]
          exact hall s0 hs0
    · simpa [hadm] using hall

/-- Concrete instantiation of `student_status_enum_preserved`. -/
theorem student_status_enum_preserved_witness :
    (∀ s ∈ (update_status dbOne sessAdmin 1 "Accepted").db.students, studentStatusOk s) ∧
    (∀ s ∈ (admin_edit_student dbOne sessAdmin 1
        (.post ⟨"Alice", "alice@example.com", "NIT Nagaland", "CSE", some 2026, "Denied"⟩)).db.students,
      studentStatusOk s) := by
  have h := student_status_enum_preserved dbOne sessAdmin (by decide)
  exact ⟨h.2.2.1 1 "Accepted",
    h.2.2.2 1 ⟨"Alice", "alice@example.com", "NIT Nagaland", "CSE", some 2026, "Denied"⟩
      (by right; right; rfl)⟩

/-- C5: `update_status` writes the requested status to the addressed student
exactly when it is `Accepted` or `Denied` — the row is rewritten pointwise and
every other table is untouched — and for any other requested value the whole
store is left unchanged while the handler still redirects to the dashboard. -/
theorem update_status_accept_deny_only (db : DB) (sess : Session) (aid sid : Nat)
    (st : String) (student : Student)
    (hsess : sess.admin_id = some aid)
    (hstud : queryStudent db sid = some student) :
    ((st = "Accepted" ∨ st = "Denied") →
      (update_status db sess sid st).db.students =
        db.students.map (fun s => if s.id == sid then { s with status := st } else s) ∧
      { student with status := st } ∈ (update_status db sess sid st).db.students ∧
      (update_status db sess sid st).db.admins = db.admins ∧
      (update_status db sess sid st).db.contests = db.contests ∧
      (update_status db sess sid st).db.settings = db.settings ∧
      (update_status db sess sid st).resp = .redirect "admin_dashboard") ∧
    (st ≠ "Accepted" → st ≠ "Denied" →
      update_status db sess sid st = ⟨db, .redirect "admin_dashboard", []⟩) := by
  have hnone : sess.admin_id.isNone = false := by simp [hsess]
  constructor
  · intro hv
    have hval : (st == "Accepted" || st == "Denied") = true := by
      rcases hv with h | h
      · simp [h]
      · simp [h]
    have hmain : update_status db sess sid st =
        ⟨updateStudent db sid (fun s => { s with status := st }), .redirect "admin_dashboard",
          [⟨"Student " ++ student.name ++ "'s application has been " ++
            asciiLower st ++ ".", "success"⟩]⟩ := by
      unfold update_status
      rw [hnone, hstud]
      simp [hval]
    have hmem : { student with status := st } ∈ (update_status db sess sid st).db.students := by
      rw [hmain]
      unfold updateStudent
      refine List.mem_map.mpr ⟨student, List.mem_of_find?_eq_some hstud, ?_⟩
      rw [if_pos (List.find?_some hstud)]
    exact ⟨by rw [hmain]; rfl, hmem, by rw [hmain]; rfl, by rw [hmain]; rfl,
      by rw [hmain]; rfl, by rw [hmain]⟩
  · intro h1 h2
    have hval : (st == "Accepted" || st == "Denied") = false := by
      simp [h1, h2]
    unfold update_status
    rw [hnone, hstud]
    simp [hval]

/-- Concrete instantiation of `update_status_accept_deny_only`. -/
theorem update_status_accept_deny_only_witness :
    (update_status dbOne sessAdmin 1 "Accepted").db.students =
      [{ studentAlice with status := "Accepted" }] ∧
    update_status dbOne sessAdmin 1 "Pending" = ⟨dbOne, .redirect "admin_dashboard", []⟩ := by
  have hA := (update_status_accept_deny_only dbOne sessAdmin 1 1 "Accepted" studentAlice
    rfl (by decide)).1 (Or.inl rfl)
  have hP := (update_status_accept_deny_only dbOne sessAdmin 1 1 "Pending" studentAlice
    rfl (by decide)).2 (by decide) (by decide)
  refine ⟨?_, hP⟩
  rw [hA.1]
  decide

/-- C6: deleting a contest cascade-deletes: afterwards a contest row is in the
store iff it was there before and is not the deleted one, a student row is in
the store iff it was there before and is not registered to the deleted contest,
and admins and settings are untouched. -/
theorem delete_contest_cascades (db : DB) (sess : Session) (aid cid : Nat) (contest : Contest)
    (hsess : sess.admin_id = some aid)
    (hc : queryContest db cid = some contest)
    (hnodup : (db.contests.map Contest.id).Nodup) :
    (∀ c : Contest, c ∈ (admin_delete_contest db sess cid).db.contests ↔
      (c ∈ db.contests ∧ c.id ≠ cid)) ∧
    (∀ s : Student, s ∈ (admin_delete_contest db sess cid).db.students ↔
      (s ∈ db.students ∧ s.contest_id ≠ cid)) ∧
    (admin_delete_contest db sess cid).db.admins = db.admins ∧
    (admin_delete_contest db sess cid).db.settings = db.settings ∧
    (admin_delete_contest db sess cid).resp = .redirect "admin_manage_contests" := by
  have hnone : sess.admin_id.isNone = false := by simp [hsess]
  have hmain : admin_delete_contest db sess cid =
      ⟨{ db with contests := db.contests.eraseP (fun c => c.id == cid),
                 students := db.students.filter (fun s => s.contest_id != cid) },
        .redirect "admin_manage_contests",
        [⟨"Contest '" ++ contest.name ++ "' and all its registrations have been deleted.",
          "success"⟩]⟩ := by
    unfold admin_delete_contest
    rw [hnone, hc]
    rfl
  refine ⟨?_, ?_, by rw [hmain], by rw [hmain], by rw [hmain]⟩
  · intro c
    rw [hmain]
    show c ∈ db.contests.eraseP (fun c => c.id == cid) ↔ _
    rw [eraseP_key_eq_filter Contest.id cid db.contests hnodup]
    simp [List.mem_filter]
  · intro s
    rw [hmain]
    show s ∈ db.students.filter (fun s => s.contest_id != cid) ↔ _
    simp [List.mem_filter]

/-- Concrete instantiation of `delete_contest_cascades`. -/
theorem delete_contest_cascades_witness :
    (studentBob ∈ (admin_delete_contest dbTwo sessAdmin 1).db.students ↔
      (studentBob ∈ dbTwo.students ∧ studentBob.contest_id ≠ 1)) ∧
    (studentAlice ∈ (admin_delete_contest dbTwo sessAdmin 1).db.students ↔
      (studentAlice ∈ dbTwo.students ∧ studentAlice.contest_id ≠ 1)) ∧
    (contest1 ∈ (admin_delete_contest dbTwo sessAdmin 1).db.contests ↔
      (contest1 ∈ dbTwo.contests ∧ contest1.id ≠ 1)) ∧
    (admin_delete_contest dbTwo sessAdmin 1).db.admins = dbTwo.admins := by
  have h := delete_contest_cascades dbTwo sessAdmin 1 1 contest1 rfl (by decide) (by decide)
  exact ⟨h.2.1 studentBob, h.2.1 studentAlice, h.1 contest1, h.2.2.1⟩

/-- C7: the CSV export is complete: with at least one student the store is
untouched and the response is the attachment whose rows are exactly the header
followed by one row per student in store order, each row carrying the student's
ID, name, email, college, branch, graduation year, status, test link, score and
contest name; with no students the export is refused with an error flash and a
redirect, producing no file. -/
theorem csv_export_complete (db : DB) (sess : Session) (aid : Nat)
    (hsess : sess.admin_id = some aid) :
    (db.students ≠ [] →
      (admin_export_csv db sess).db = db ∧
      (admin_export_csv db sess).resp =
        .csvFile "all_students.csv" (csvHeader :: db.students.map (csvRow db)) ∧
      (csvHeader :: db.students.map (csvRow db)).length = db.students.length + 1 ∧
      (∀ s c, s ∈ db.students → queryContest db s.contest_id = some c →
        csvRow db s = [toString s.id, s.name, s.email, s.college, s.branch,
          csvOptInt s.graduation_year, s.status, csvOptStr s.test_link, csvOptInt s.score,
          c.name])) ∧
    (db.students = [] →
      admin_export_csv db sess =
        ⟨db, .redirect "admin_dashboard", [⟨"No students found to export.", "error"⟩]⟩) := by
  have hnone : sess.admin_id.isNone = false := by simp [hsess]
  constructor
  · intro hne
    have hempty : db.students.isEmpty = false := by
      rcases h : db.students.isEmpty with _ | _
      · rfl
      · exact absurd (List.isEmpty_iff.mp h) hne
    have hmain : admin_export_csv db sess =
        ⟨db, .csvFile "all_students.csv" (csvHeader :: db.students.map (csvRow db)), []⟩ := by
      unfold admin_export_csv
      rw [hnone, hempty]
      rfl
    refine ⟨by rw [hmain], by rw [hmain], by simp, ?_⟩
    intro s c hs hc
    unfold csvRow
    rw [hc]
    rfl
  · intro hnil
    have hempty : db.students.isEmpty = true := by simp [hnil]
    unfold admin_export_csv
    rw [hnone, hempty]
    rfl

/-- Concrete instantiation of `csv_export_complete`. -/
theorem csv_export_complete_witness :
    (admin_export_csv dbTwo sessAdmin).resp =
      .csvFile "all_students.csv" (csvHeader :: dbTwo.students.map (csvRow dbTwo)) ∧
    csvRow dbTwo studentBob = ["2", "Bob", "bob@example.com", "NIT Nagaland", "ECE", "2025",
      "Accepted", "http://test", "50", "HackNight"] ∧
    admin_export_csv ⟨[adminRoot], [contest1], [], []⟩ sessAdmin =
      ⟨⟨[adminRoot], [contest1], [], []⟩, .redirect "admin_dashboard",
        [⟨"No students found to export.", "error"⟩]⟩ := by
  have h := (csv_export_complete dbTwo sessAdmin 1 rfl).1 (by decide)
  have h0 := (csv_export_complete ⟨[adminRoot], [contest1], [], []⟩ sessAdmin 1 rfl).2 rfl
  refine ⟨h.2.1, ?_, h0⟩
  have hrow := h.2.2.2 studentBob contest2 (by decide) (by decide)
  rw [hrow]
  decide

/-- C8: the public results page lists a contest iff its `publish_results` flag
is set, and `admin_toggle_publish` flips exactly that flag of exactly the
addressed contest — every other contest row and every other table is
unchanged. -/
theorem publish_visibility_and_toggle (db : DB) (sess : Session) (aid cid : Nat)
    (contest : Contest)
    (hsess : sess.admin_id = some aid)
    (hc : queryContest db cid = some contest) :
    (∀ c : Contest, c ∈ (public_results db).1 ↔ (c ∈ db.contests ∧ c.publish_results = true)) ∧
    (admin_toggle_publish db sess cid).db.contests =
      db.contests.map (fun c =>
        if c.id == cid then { c with publish_results := !c.publish_results } else c) ∧
    { contest with publish_results := !contest.publish_results } ∈
      (admin_toggle_publish db sess cid).db.contests ∧
    (∀ c ∈ db.contests, c.id ≠ cid → c ∈ (admin_toggle_publish db sess cid).db.contests) ∧
    (admin_toggle_publish db sess cid).db.students = db.students ∧
    (admin_toggle_publish db sess cid).db.admins = db.admins ∧
    (admin_toggle_publish db sess cid).db.settings = db.settings ∧
    (admin_toggle_publish db sess cid).resp = .redirect "admin_past_contests" := by
  have hnone : sess.admin_id.isNone = false := by simp [hsess]
  have hmain : admin_toggle_publish db sess cid =
      ⟨updateContest db cid (fun c => { c with publish_results := !c.publish_results }),
        .redirect "admin_past_contests",
        [⟨"Results for '" ++ contest.name ++ "' are now " ++
          (if !contest.publish_results then "published" else "hidden") ++ ".", "success"⟩]⟩ := by
    unfold admin_toggle_publish
    rw [hnone, hc]
    rfl
  refine ⟨?_, by rw [hmain]; rfl, ?_, ?_, by rw [hmain]; rfl, by rw [hmain]; rfl,
    by rw [hmain]; rfl, by rw [hmain]⟩
  · intro c
    show c ∈ orderByDateDesc (db.contests.filter (fun c => c.publish_results)) ↔ _
    rw [mem_orderByDateDesc]
    simp [List.mem_filter]
  · rw [hmain]
    show _ ∈ db.contests.map _
    refine List.mem_map.mpr ⟨contest, List.mem_of_find?_eq_some hc, ?_⟩
    rw [if_pos (List.find?_some hc)]
  · intro c hcmem hne
    rw [hmain]
    show _ ∈ db.contests.map _
    refine List.mem_map.mpr ⟨c, hcmem, ?_⟩
    rw [if_neg (by simp [hne])]

/-- Concrete instantiation of `publish_visibility_and_toggle`. -/
theorem publish_visibility_and_toggle_witness :
    (contest2 ∈ (public_results dbTwo).1 ↔ (contest2 ∈ dbTwo.contests ∧ contest2.publish_results = true)) ∧
    (contest1 ∈ (public_results dbTwo).1 ↔ (contest1 ∈ dbTwo.contests ∧ contest1.publish_results = true)) ∧
    { contest1 with publish_results := !contest1.publish_results } ∈
      (admin_toggle_publish dbTwo sessAdmin 1).db.contests ∧
    (admin_toggle_publish dbTwo sessAdmin 1).db.students = dbTwo.students := by
  have h := publish_visibility_and_toggle dbTwo sessAdmin 1 1 contest1 rfl (by decide)
  exact ⟨h.1 contest2, h.1 contest1, h.2.2.1, h.2.2.2.2.1⟩

/-- C9: a POST to `update_test_info` overwrites both `test_link` and `score` of
the addressed student unconditionally: the score becomes the parsed integer
exactly when the submitted score string is non-empty and all digits, and `None`
otherwise (missing, empty, or containing any non-digit such as a minus sign),
while `test_link` is replaced by the submitted value even when that is `None`;
no other table changes. -/
theorem test_info_overwrites_unconditionally (db : DB) (sess : Session) (aid sid : Nat)
    (student : Student) (tl : Option String) (sc : Option String) (ref : Option String)
    (hsess : sess.admin_id = some aid)
    (hstud : queryStudent db sid = some student) :
    (sc = none →
      (update_test_info db sess sid tl sc ref).db.students =
        db.students.map (fun s =>
          if s.id == sid then { s with test_link := tl, score := none } else s)) ∧
    (∀ str, sc = some str → str ≠ "" → str.data.all Char.isDigit = true →
      (update_test_info db sess sid tl sc ref).db.students =
        db.students.map (fun s =>
          if s.id == sid then { s with test_link := tl, score := some (pyInt str) } else s)) ∧
    (∀ str, sc = some str → (str = "" ∨ str.data.all Char.isDigit = false) →
      (update_test_info db sess sid tl sc ref).db.students =
        db.students.map (fun s =>
          if s.id == sid then { s with test_link := tl, score := none } else s)) ∧
    (update_test_info db sess sid tl sc ref).db.admins = db.admins ∧
    (update_test_info db sess sid tl sc ref).db.contests = db.contests ∧
    (update_test_info db sess sid tl sc ref).db.settings = db.settings := by
  have hnone : sess.admin_id.isNone = false := by simp [hsess]
  have hmain : update_test_info db sess sid tl sc ref =
      ⟨updateStudent db sid (fun s => { s with test_link := tl, score :=
          match sc with
          | some str => if pyTruthy str && pyIsDigit str then some (pyInt str) else none
          | none => none }),
        (if (ref.map (pyInStr "past_contests")).getD false then
          .redirect "admin_view_contest_results"
        else .redirect "admin_dashboard"),
        [⟨"Information for " ++ student.name ++ " has been updated.", "success"⟩]⟩ := by
    unfold update_test_info
    rw [hnone, hstud]
    rfl
  refine ⟨?_, ?_, ?_, by rw [hmain]; rfl, by rw [hmain]; rfl, by rw [hmain]; rfl⟩
  · rintro rfl
    rw [hmain]
    rfl
  · rintro str rfl hne hdig
    have hd : str.data.isEmpty = false := by
      rcases h : str.data.isEmpty with _ | _
      · rfl
      · exact absurd (String.ext (by simpa [List.isEmpty_iff] using h)) hne
    have hcond : (pyTruthy str && pyIsDigit str) = true := by
      simp [pyTruthy, pyIsDigit, hd, hdig]
    rw [hmain]
    show (updateStudent db sid _).students = _
    simp only [hcond, if_true]
    rfl
  · rintro str rfl hcase
    have hcond : (pyTruthy str && pyIsDigit str) = false := by
      rcases hcase with rfl | hdig
      · decide
      · simp [pyIsDigit, hdig]
    rw [hmain]
    show (updateStudent db sid _).students = _
    simp only [hcond, Bool.false_eq_true, if_false]
    rfl

/-- Concrete instantiation of `test_info_overwrites_unconditionally`: a negative
score string erases Bob's previously recorded score and a missing test link
erases his link; a digits-only score is stored; an empty score erases. -/
theorem test_info_overwrites_unconditionally_witness :
    (update_test_info dbTwo sessAdmin 2 none (some "-5") none).db.students =
      [studentAlice, { studentBob with test_link := none, score := none }] ∧
    (update_test_info dbTwo sessAdmin 2 (some "http://new") (some "87") none).db.students =
      [studentAlice, { studentBob with test_link := some "http://new", score := some 87 }] ∧
    (update_test_info dbTwo sessAdmin 2 none (some "") none).db.students =
      [studentAlice, { studentBob with test_link := none, score := none }] := by
  have h1 := (test_info_overwrites_unconditionally dbTwo sessAdmin 1 2 studentBob
    none (some "-5") none rfl (by decide)).2.2.1 "-5" rfl (Or.inr (by decide))
  have h2 := (test_info_overwrites_unconditionally dbTwo sessAdmin 1 2 studentBob
    (some "http://new") (some "87") none rfl (by decide)).2.1 "87" rfl (by decide) (by decide)
  have h3 := (test_info_overwrites_unconditionally dbTwo sessAdmin 1 2 studentBob
    none (some "") none rfl (by decide)).2.2.1 "" rfl (Or.inl rfl)
  refine ⟨by rw [h1]; decide, by rw [h2]; decide, by rw [h3]; decide⟩

/-- C10: an admin can never delete their own account: with the session holding
admin id A, a request to delete A is rejected with an error flash and the store
is unchanged, while a request for any other existing admin id removes exactly
that one Admin row, leaving every other table untouched. -/
theorem delete_admin_self_guard (db : DB) (sess : Session) (current target : Nat)
    (admin : Admin)
    (hsess : sess.admin_id = some current)
    (hnodup : (db.admins.map Admin.id).Nodup) :
    (target = current →
      admin_delete_admin db sess target =
        ⟨db, .redirect "admin_manage_admins",
          [⟨"You cannot delete your own account.", "error"⟩]⟩) ∧
    (target ≠ current → queryAdminById db target = some admin →
      (∀ a : Admin, a ∈ (admin_delete_admin db sess target).db.admins ↔
        (a ∈ db.admins ∧ a.id ≠ target)) ∧
      (admin_delete_admin db sess target).db.students = db.students ∧
      (admin_delete_admin db sess target).db.contests = db.contests ∧
      (admin_delete_admin db sess target).db.settings = db.settings ∧
      (admin_delete_admin db sess target).resp = .redirect "admin_manage_admins") := by
  constructor
  · rintro rfl
    unfold admin_delete_admin
    rw [hsess]
    simp
  · intro hne hq
    have hbeq : (target == current) = false := by simp [hne]
    have hmain : admin_delete_admin db sess target =
        ⟨{ db with admins := db.admins.eraseP (fun a => a.id == target) },
          .redirect "admin_manage_admins",
          [⟨"Admin account \"" ++ admin.username ++ "\" has been deleted successfully.",
            "success"⟩]⟩ := by
      unfold admin_delete_admin
      rw [hsess]
      simp only [hbeq, Bool.false_eq_true, if_false]
      rw [hq]
    refine ⟨?_, by rw [hmain], by rw [hmain], by rw [hmain], by rw [hmain]⟩
    intro a
    rw [hmain]
    show a ∈ db.admins.eraseP (fun a => a.id == target) ↔ _
    rw [eraseP_key_eq_filter Admin.id target db.admins hnodup]
    simp [List.mem_filter]

/-- Concrete instantiation of `delete_admin_self_guard`. -/
theorem delete_admin_self_guard_witness :
    admin_delete_admin dbTwo sessAdmin 1 =
      ⟨dbTwo, .redirect "admin_manage_admins",
        [⟨"You cannot delete your own account.", "error"⟩]⟩ ∧
    (adminSecond ∈ (admin_delete_admin dbTwo sessAdmin 2).db.admins ↔
      (adminSecond ∈ dbTwo.admins ∧ adminSecond.id ≠ 2)) ∧
    (adminRoot ∈ (admin_delete_admin dbTwo sessAdmin 2).db.admins ↔
      (adminRoot ∈ dbTwo.admins ∧ adminRoot.id ≠ 2)) ∧
    (admin_delete_admin dbTwo sessAdmin 2).db.students = dbTwo.students := by
  have hself := (delete_admin_self_guard dbTwo sessAdmin 1 1 adminRoot rfl (by decide)).1 rfl
  have hother := (delete_admin_self_guard dbTwo sessAdmin 1 2 adminSecond rfl (by decide)).2
    (by decide) (by decide)
  exact ⟨hself, hother.1 adminSecond, hother.1 adminRoot, hother.2.1⟩
